import Mathlib

/-!
Shallow embedding of the mcp-prototyping repository.

Server side: `src/example-server-spotify/spotify_mcp_server.py` exposes four
tool functions (`search_tracks`, `get_artist_info`, `get_audio_features`,
`get_recommendations`).  Each performs one or more calls to the spotipy
client `sp`; those outbound calls are modelled as function parameters
returning `Except PyException r`, where `.error e` models the call raising
the Python exception `e` and `.ok v` models it returning `v` (spotipy can
return `None`, hence the `Option` in the result types).  Python truthiness
of the JSON dictionaries is modelled by `Option`/empty-list cases exactly
where the source tests `not x`.

Client side: `src/example-client-spotify/spotify_langchain_client.py` -
the pydantic models (`MCPToolResponse`, `MCPToolCall`, `MCPToolSchema`),
the `TOOL_SCHEMAS` table, `call_mcp_tool`, the wrapper produced by
`make_tool_function`, and the discovery loop of `discover_mcp_tools`.
Pydantic v2 construction is modelled explicitly: a field validator runs
only for fields that were provided by the caller (`validate_default` is
off for all fields here), fields are validated in declaration order, and
a validator failure makes the whole construction fail.

Lifecycle tutorial: `src/mcp-tutorial/python-sdk/examples/snippets/servers/
lifespan_example.py` - the `app_lifespan` async context manager is embedded
as a small program term (`LifespanProg`) whose execution produces the trace
of resource events around an arbitrary serving outcome.
-/

/-- Python exceptions that flow through the code under proof.
`spotifyException` carries `.msg` and `.http_status` as read by the server's
`except SpotifyException` blocks; `validationError` is a pydantic
ValidationError (stringified message); `other` is any other exception. -/
inductive PyException where
  | spotifyException (msg : String) (http_status : Int)
  | validationError (msg : String)
  | other (msg : String)
deriving DecidableEq

/-- Python `str(e)` for an exception `e`.  Only the `validationError` and
`other` images are ever inspected by the claims; the `spotifyException`
image approximates spotipy's `SpotifyException.__str__`. -/
def pyStr : PyException → String
  | .spotifyException msg status => "http status: " ++ toString status ++ ", " ++ msg
  | .validationError msg => msg
  | .other msg => msg

/-- The two identical `except` blocks ending each of the four tool
functions (lines 62-65, 109-112, 156-159 and 194-197 of
spotify_mcp_server.py):
`except SpotifyException as e: return f"Spotify API error: {e.msg} (Status: {e.http_status})"`
then `except Exception as e: return f"Unexpected error: {str(e)}"`. -/
def formatToolException : PyException → String
  | .spotifyException msg status =>
      "Spotify API error: " ++ msg ++ " (Status: " ++ toString status ++ ")"
  | e => "Unexpected error: " ++ pyStr e

/-! Shapes of the spotipy JSON results, restricted to the fields the
server reads. -/

structure SpArtist where
  name : String
deriving DecidableEq

structure SpAlbum where
  name : String
deriving DecidableEq

structure TrackItem where
  name : String
  artists : List SpArtist
  album : SpAlbum
  uri : String
  id : String
  preview_url : Option String
deriving DecidableEq

structure TracksPage where
  items : List TrackItem
deriving DecidableEq

structure SearchTracksResult where
  tracks : Option TracksPage
deriving DecidableEq

/-- The `track_info` dict built per item in `search_tracks` (lines 42-49). -/
structure TrackInfo where
  name : String
  artist : String
  album : String
  uri : String
  id : String
  preview_url : String
deriving DecidableEq

/-- `search_tracks(query, limit=10)` (spotify_mcp_server.py lines 26-65).
`apiSearch` models `sp.search(q=..., type='track', limit=...)`. -/
def search_tracks (query : String) (limit : Int)
    (apiSearch : String → Int → Except PyException (Option SearchTracksResult)) : String :=
  match apiSearch query (min limit 50) with
  | .error e => formatToolException e
  | .ok results =>
    match results with
    | none => "No results found for track name: '" ++ query ++ "'"
    | some r =>
      match r.tracks with
      | none => "No results found for track name: '" ++ query ++ "'"
      | some page =>
        match page.items with
        | [] => "No results found for track name: '" ++ query ++ "'"
        | items =>
          let tracks : List TrackInfo := items.map (fun item =>
            { name := item.name,
              artist := String.intercalate ", " (item.artists.map SpArtist.name),
              album := item.album.name,
              uri := item.uri,
              id := item.id,
              preview_url := item.preview_url.getD "N/A" })
          "Found " ++ toString tracks.length ++ " tracks:\n\n" ++
            String.join ((tracks.enum).map (fun p =>
              toString (p.1 + 1) ++ ". " ++ p.2.name ++ " by " ++ p.2.artist ++ "\n" ++
              "   Album: " ++ p.2.album ++ "\n" ++
              "   Track ID: " ++ p.2.id ++ "\n" ++
              "   URI: " ++ p.2.uri ++ "\n" ++
              "   Preview: " ++ p.2.preview_url ++ "\n\n"))

/-! `get_artist_info` (spotify_mcp_server.py lines 68-112). -/

structure ArtistItem where
  id : String
deriving DecidableEq

structure ArtistsPage where
  items : List ArtistItem
deriving DecidableEq

structure SearchArtistsResult where
  artists : Option ArtistsPage
deriving DecidableEq

structure SpFollowers where
  total : Nat
deriving DecidableEq

structure ArtistDetails where
  name : String
  popularity : Int
  followers : SpFollowers
  genres : List String
  uri : String
deriving DecidableEq

structure TopTrackItem where
  name : String
  album : SpAlbum
deriving DecidableEq

structure TopTracksResult where
  tracks : Option (List TopTrackItem)
deriving DecidableEq

/-- Groups of up to three characters, taken from the front; used to render
Python's thousands-separator format spec on a digit string reversed. -/
def chunksOfThree : List Char → List (List Char)
  | a :: b :: c :: rest@(_ :: _) => [a, b, c] :: chunksOfThree rest
  | l => [l]

/-- Python's `format(n, ',')`, as used by `f"{...['followers']['total']:,}"`
(line 99): the decimal digits of `n` with a comma every three, from the
right. -/
def formatThousands (n : Nat) : String :=
  String.intercalate ","
    (((chunksOfThree (toString n).data.reverse).map (fun g => String.mk g.reverse)).reverse)

/-- `get_artist_info(artist_name)` (lines 68-112).  `apiSearchArtists`,
`apiArtist` and `apiArtistTopTracks` model `sp.search(..., type='artist',
limit=1)`, `sp.artist(artist_id)` and `sp.artist_top_tracks(artist_id)`.
The three outbound calls happen inside one `try`, so the first to raise
reaches the shared `except` blocks. -/
def get_artist_info (artist_name : String)
    (apiSearchArtists : String → Int → Except PyException (Option SearchArtistsResult))
    (apiArtist : String → Except PyException (Option ArtistDetails))
    (apiArtistTopTracks : String → Except PyException (Option TopTracksResult)) : String :=
  let body : Except PyException String := do
    let results ← apiSearchArtists artist_name 1
    match results with
    | none => pure ("No artist found with name: '" ++ artist_name ++ "'")
    | some r =>
      match r.artists with
      | none => pure ("No artist found with name: '" ++ artist_name ++ "'")
      | some page =>
        match page.items with
        | [] => pure ("No artist found with name: '" ++ artist_name ++ "'")
        | artist :: _ => do
          let artist_id := artist.id
          let artist_details ← apiArtist artist_id
          match artist_details with
          | none => pure ("Could not retrieve details for artist: '" ++ artist_name ++ "'")
          | some details => do
            let top_tracks ← apiArtistTopTracks artist_id
            match top_tracks with
            | none => pure ("Could not retrieve top tracks for artist: '" ++ artist_name ++ "'")
            | some tt =>
              match tt.tracks with
              | none => pure ("Could not retrieve top tracks for artist: '" ++ artist_name ++ "'")
              | some [] => pure ("Could not retrieve top tracks for artist: '" ++ artist_name ++ "'")
              | some tracks =>
                pure ("Artist: " ++ details.name ++ "\n" ++
                  "Popularity: " ++ toString details.popularity ++ "/100\n" ++
                  "Followers: " ++ formatThousands details.followers.total ++ "\n" ++
                  "Genres: " ++
                    (if details.genres.isEmpty then "N/A"
                     else String.intercalate ", " details.genres) ++ "\n" ++
                  "Spotify URI: " ++ details.uri ++ "\n\n" ++
                  "Top Tracks:\n" ++
                  String.join (((tracks.take 5).enum).map (fun p =>
                    toString (p.1 + 1) ++ ". " ++ p.2.name ++ " - " ++ p.2.album.name ++ "\n")))
  match body with
  | .ok s => s
  | .error e => formatToolException e

/-! `get_audio_features` (spotify_mcp_server.py lines 115-159). -/

structure AudioFeatures where
  tempo : Float
  key : Int
  mode : Int
  time_signature : Int
  duration_ms : Float
  danceability : Float
  energy : Float
  speechiness : Float
  acousticness : Float
  instrumentalness : Float
  liveness : Float
  valence : Float
  loudness : Float

structure TrackDetails where
  name : String
  artists : List SpArtist

/-- Approximates CPython's fixed-point float format specs `:.1f` and
`:.2f`; exact decimal rendering of binary floating point is outside
this model, and no claim inspects these substrings. -/
def formatFixed (x : Float) : String := toString x

/-- `get_audio_features(track_id)` (lines 115-159).  `apiAudioFeatures`
models `sp.audio_features(track_id)` (a list whose entries may be `None`),
`apiTrack` models `sp.track(track_id)`.  `track['artists'][0]` on an empty
list raises IndexError, which the generic `except` turns into an
"Unexpected error" string. -/
def get_audio_features (track_id : String)
    (apiAudioFeatures : String → Except PyException (Option (List (Option AudioFeatures))))
    (apiTrack : String → Except PyException (Option TrackDetails)) : String :=
  let body : Except PyException String := do
    let features_response ← apiAudioFeatures track_id
    match features_response with
    | none => pure ("No audio features found for track ID: '" ++ track_id ++ "'")
    | some [] => pure ("No audio features found for track ID: '" ++ track_id ++ "'")
    | some (none :: _) => pure ("No audio features found for track ID: '" ++ track_id ++ "'")
    | some (some features :: _) => do
      let track ← apiTrack track_id
      match track with
      | none => pure ("Could not retrieve track information for ID: '" ++ track_id ++ "'")
      | some t =>
        match t.artists with
        | [] => throw (PyException.other "list index out of range")
        | a :: _ =>
          pure ("Audio Features for: " ++ t.name ++ " by " ++ a.name ++ "\n\n" ++
            "Tempo: " ++ formatFixed features.tempo ++ " BPM\n" ++
            "Key: " ++ toString features.key ++ " (0=C, 1=C#, 2=D, etc.)\n" ++
            "Mode: " ++ (if features.mode == 1 then "Major" else "Minor") ++ "\n" ++
            "Time Signature: " ++ toString features.time_signature ++ "/4\n" ++
            "Duration: " ++ formatFixed (features.duration_ms / 1000) ++ " seconds\n\n" ++
            "Musical Characteristics (0.0 to 1.0):\n" ++
            "  Danceability: " ++ formatFixed features.danceability ++ "\n" ++
            "  Energy: " ++ formatFixed features.energy ++ "\n" ++
            "  Speechiness: " ++ formatFixed features.speechiness ++ "\n" ++
            "  Acousticness: " ++ formatFixed features.acousticness ++ "\n" ++
            "  Instrumentalness: " ++ formatFixed features.instrumentalness ++ "\n" ++
            "  Liveness: " ++ formatFixed features.liveness ++ "\n" ++
            "  Valence (positivity): " ++ formatFixed features.valence ++ "\n" ++
            "  Loudness: " ++ formatFixed features.loudness ++ " dB\n")
  match body with
  | .ok s => s
  | .error e => formatToolException e

/-! `get_recommendations` (spotify_mcp_server.py lines 162-197). -/

structure RecTrack where
  name : String
  artists : List SpArtist
  album : SpAlbum
  id : String
  popularity : Int
deriving DecidableEq

structure RecommendationsResult where
  tracks : List RecTrack
deriving DecidableEq

/-- Python's `s.split(',')` on the underlying character list: splits at
every separator, keeping empty pieces, and yields `[[]]` on the empty
string (Python: `''.split(',') == ['']`). -/
def splitOnComma : List Char → List (List Char)
  | [] => [[]]
  | c :: rest =>
    match splitOnComma rest with
    | [] => [[c]]
    | g :: gs => if c == ',' then [] :: g :: gs else (c :: g) :: gs

/-- Python's `str.strip()`: drops whitespace from both ends (ASCII
whitespace via `Char.isWhitespace`). -/
def pyStrip (s : String) : String :=
  String.mk ((s.data.dropWhile Char.isWhitespace).reverse.dropWhile Char.isWhitespace).reverse

/-- `seed_track_ids.split(',')` as a list of strings. -/
def pySplitComma (s : String) : List String :=
  (splitOnComma s.data).map String.mk

/-- `get_recommendations(seed_track_ids, limit=10)` (lines 162-197).
`apiRecommendations` models `sp.recommendations(seed_tracks=..., limit=...)`.
Line 173: `track_ids = [tid.strip() for tid in seed_track_ids.split(',')][:5]`,
with `pyStrip` standing for Python's `str.strip()`. -/
def get_recommendations (seed_track_ids : String) (limit : Int)
    (apiRecommendations : List String → Int → Except PyException (Option RecommendationsResult)) :
    String :=
  let body : Except PyException String := do
    let track_ids := ((pySplitComma seed_track_ids).map pyStrip).take 5
    if track_ids.isEmpty then
      pure "Please provide at least one track ID"
    else do
      let results ← apiRecommendations track_ids (min limit 100)
      match results with
      | none => pure "No recommendations found for the given tracks"
      | some r =>
        match r.tracks with
        | [] => pure "No recommendations found for the given tracks"
        | tracks =>
          pure ("Recommendations based on " ++ toString track_ids.length ++
            " seed track(s):\n\n" ++
            String.join ((tracks.enum).map (fun p =>
              toString (p.1 + 1) ++ ". " ++ p.2.name ++ " by " ++
                String.intercalate ", " (p.2.artists.map SpArtist.name) ++ "\n" ++
                "   Album: " ++ p.2.album.name ++ "\n" ++
                "   Track ID: " ++ p.2.id ++ "\n" ++
                "   Popularity: " ++ toString p.2.popularity ++ "/100\n\n")))
  match body with
  | .ok s => s
  | .error e => formatToolException e

/-! Client: pydantic models of spotify_langchain_client.py. -/

/-- Python truthiness of an `Optional[str]`: `None` and `""` are falsy. -/
def pyFalsyOptStr : Option String → Bool
  | none => true
  | some s => s == ""

/-- The validated `MCPToolResponse` record (lines 102-117). -/
structure MCPToolResponse where
  success : Bool
  content : Option String
  error : Option String
deriving DecidableEq

/-- Arguments of an attempted `MCPToolResponse(...)` construction.  The
outer `Option` distinguishes a field the caller provided (possibly as an
explicit `None`) from one left to its default: pydantic v2 runs field
validators only on provided values (`validate_default` is off here). -/
structure MCPToolResponseArgs where
  success : Option Bool
  content : Option (Option String)
  error : Option (Option String)
deriving DecidableEq

/-- The `validate_content_or_error` field validator (lines 108-117), run
with the already-validated `success` in `info.data` and the field's own
name in `info.field_name`. -/
def validate_content_or_error (success : Bool) (field_name : String) (v : Option String) :
    Except String (Option String) :=
  if success && pyFalsyOptStr v && (field_name == "content") then
    Except.error "Successful response must have content"
  else if !success && pyFalsyOptStr v && (field_name == "error") then
    Except.error "Failed response must have error message"
  else
    Except.ok v

/-- Construction of `MCPToolResponse`: fields are processed in declaration
order (`success`, `content`, `error`); a provided field runs the validator,
an omitted field takes its default with the validator skipped; a raised
`ValueError` fails the whole construction. -/
def mkMCPToolResponse (args : MCPToolResponseArgs) : Except String MCPToolResponse := do
  let success := args.success.getD true
  let content ← match args.content with
    | none => pure none
    | some v => validate_content_or_error success "content" v
  let error ← match args.error with
    | none => pure none
    | some v => validate_content_or_error success "error" v
  pure { success := success, content := content, error := error }

/-- The validated `MCPToolCall` record (lines 89-99). -/
structure MCPToolCall where
  tool_name : String
  arguments : List (String × String)
deriving DecidableEq

/-- `MCPToolCall(tool_name=..., arguments=...)`: the `validate_tool_name`
field validator rejects an empty or whitespace-only name.  The `arguments`
dict is passed through unvalidated; its values are opaque here. -/
def mkMCPToolCall (tool_name : String) (arguments : List (String × String)) :
    Except String MCPToolCall :=
  if tool_name == "" || pyStrip tool_name == "" then
    Except.error "Tool name cannot be empty"
  else
    Except.ok { tool_name := tool_name, arguments := arguments }

/-- `MCPToolResponse(success=True, content=s)` as written on line 252. -/
def mkSuccessResponse (s : String) : Except String MCPToolResponse :=
  mkMCPToolResponse { success := some true, content := some (some s), error := none }

/-- `MCPToolResponse(success=False, error=msg)` as written on lines 256
and 261. -/
def mkFailureResponse (msg : String) : Except String MCPToolResponse :=
  mkMCPToolResponse { success := some false, content := none, error := some (some msg) }

/-- The `except Exception` handler of `call_mcp_tool` (lines 258-261):
builds a failure response from `str(e)`; if that construction itself
raises (only possible when `str(e)` is falsy), the new ValidationError
propagates out of `call_mcp_tool`. -/
def callToolExceptHandler (e : PyException) : Except PyException MCPToolResponse :=
  match mkFailureResponse (pyStr e) with
  | Except.ok r => Except.ok r
  | Except.error m => Except.error (PyException.validationError m)

/-- `call_mcp_tool(tool_call, server_params)` (lines 211-261).  `transport`
models the fresh stdio connection plus `session.call_tool`; it returns the
call result (`None` or its `content` list, each item already rendered by
`str(...)` as on line 239 — the `hasattr` branches on lines 243-248 are
dead, since `content` is a `str` by then) or raises.  The body runs inside
`try`, so a raise from the transport or from response construction reaches
the `except` handler. -/
def call_mcp_tool (tool_call : MCPToolCall)
    (transport : MCPToolCall → Except PyException (Option (List String))) :
    Except PyException MCPToolResponse :=
  match transport tool_call with
  | Except.error e => callToolExceptHandler e
  | Except.ok result =>
    match result with
    | some (first :: _) =>
      match mkSuccessResponse first with
      | Except.ok r => Except.ok r
      | Except.error m => callToolExceptHandler (PyException.validationError m)
    | _ =>
      match mkFailureResponse "No content in response" with
      | Except.ok r => Except.ok r
      | Except.error m => callToolExceptHandler (PyException.validationError m)

/-- Python `response.content or "No content"` (line 338): the default
replaces a falsy (`None` or empty) content. -/
def pyOrStr (v : Option String) (default : String) : String :=
  match v with
  | none => default
  | some s => if s == "" then default else s

/-- Python `f"Error: {response.error}"` (line 340): `None` renders as the
text "None". -/
def pyStrOfOptional (v : Option String) : String :=
  match v with
  | none => "None"
  | some s => s

/-- The `call_tool_wrapper` closure produced by `make_tool_function`
(lines 325-342): builds an `MCPToolCall` from the keyword arguments,
invokes `call_mcp_tool` over the transport, and renders the structured
response as a plain string.  A raise from `MCPToolCall` construction or
from `call_mcp_tool` propagates (the wrapper has no handler). -/
def call_tool_wrapper (tool_name : String) (kwargs : List (String × String))
    (transport : MCPToolCall → Except PyException (Option (List String))) :
    Except PyException String :=
  match mkMCPToolCall tool_name kwargs with
  | Except.error m => Except.error (PyException.validationError m)
  | Except.ok tool_call =>
    match call_mcp_tool tool_call transport with
    | Except.error e => Except.error e
    | Except.ok response =>
      Except.ok (if response.success then pyOrStr response.content "No content"
                 else "Error: " ++ pyStrOfOptional response.error)

/-! Client: tool discovery (spotify_langchain_client.py lines 264-354). -/

/-- A tool as declared by the server in `session.list_tools()`: the fields
`discover_mcp_tools` reads from each `mcp_tool`.  The input schema is a
JSON object, modelled shallowly as key-value pairs; it feeds only logging
and the defaulting `mcp_tool.inputSchema or {}`. -/
structure DeclaredTool where
  name : String
  description : Option String
  inputSchema : Option (List (String × String))
deriving DecidableEq

/-- The validated `MCPToolSchema` record (lines 75-86). -/
structure MCPToolSchema where
  name : String
  description : Option String
  input_schema : List (String × String)
deriving DecidableEq

/-- Python `v.replace('_', '').replace('-', '').isalnum()` (line 84),
with `Char.isAlphanum` standing for `str.isalnum` (ASCII approximation). -/
def pythonNameIsAlnum (v : String) : Bool :=
  let stripped := v.data.filter (fun c => !(c == '_' || c == '-'))
  !stripped.isEmpty && stripped.all Char.isAlphanum

/-- `MCPToolSchema(name=..., description=..., input_schema=...)`: the
`min_length=1` constraint on `name`, then the `validate_tool_name` field
validator. -/
def mkMCPToolSchema (t : DeclaredTool) : Except String MCPToolSchema :=
  if t.name.length < 1 then
    Except.error "String should have at least 1 character"
  else if !pythonNameIsAlnum t.name then
    Except.error ("Tool name must be alphanumeric with underscores/hyphens: " ++ t.name)
  else
    Except.ok { name := t.name, description := t.description,
                input_schema := t.inputSchema.getD [] }

/-- The five hand-authored argument-schema classes (lines 137-167),
as identifiers. -/
inductive ToolArgsSchema where
  | spotifySearchArgs
  | spotifyPlaylistArgs
  | spotifyPlaybackArgs
  | spotifyGetInfoArgs
  | spotifyQueueArgs
deriving DecidableEq

/-- The fixed `TOOL_SCHEMAS` lookup table (lines 170-176). -/
def TOOL_SCHEMAS : List (String × ToolArgsSchema) :=
  [("SpotifySearch", ToolArgsSchema.spotifySearchArgs),
   ("SpotifyPlaylist", ToolArgsSchema.spotifyPlaylistArgs),
   ("SpotifyPlayback", ToolArgsSchema.spotifyPlaybackArgs),
   ("SpotifyGetInfo", ToolArgsSchema.spotifyGetInfoArgs),
   ("SpotifyQueue", ToolArgsSchema.spotifyQueueArgs)]

/-- A LangChain `StructuredTool` as assembled on lines 345-350: its name,
description (defaulted to `f"Tool: {name}"`) and pre-defined args schema.
The wrapped coroutine is `call_tool_wrapper` above, closed over the name. -/
structure StructuredToolModel where
  name : String
  description : String
  args_schema : ToolArgsSchema
deriving DecidableEq

/-- One iteration of the discovery loop (lines 300-352) on one declared
tool: `MCPToolSchema` validation failure hits the `except`/`continue`
(line 313-315), a name missing from `TOOL_SCHEMAS` hits the skip on
lines 320-322, and otherwise a `StructuredTool` is built. -/
def processDeclaredTool (t : DeclaredTool) : Option StructuredToolModel :=
  match mkMCPToolSchema t with
  | Except.error _ => none
  | Except.ok validated =>
    match TOOL_SCHEMAS.lookup validated.name with
    | none => none
    | some args_schema =>
      some { name := validated.name,
             description := validated.description.getD ("Tool: " ++ validated.name),
             args_schema := args_schema }

/-- The discovery loop of `discover_mcp_tools`: the `langchain_tools`
accumulator after folding over the declared tools. -/
def discover_mcp_tools (tools : List DeclaredTool) : List StructuredToolModel :=
  tools.filterMap processDeclaredTool

/-! Lifespan tutorial (lifespan_example.py lines 64-87). -/

/-- Observable resource events of the lifespan scope: `Database.connect`,
the server serving while `app_lifespan` is suspended at its `yield`, and
`db.disconnect`. -/
inductive LifespanEvent where
  | connect
  | serve
  | disconnect
deriving DecidableEq

/-- The body of an async context manager as a program term: primitive
actions, sequencing, `try ... finally ...`, and the `yield` at which the
server runs. -/
inductive LifespanProg where
  | action (e : LifespanEvent)
  | seq (p q : LifespanProg)
  | tryFinallyP (body cleanup : LifespanProg)
  | yieldToServer

/-- Execution of a lifespan program around a serving outcome: `.ok ()` is
a normal shutdown, `.error e` an exception raised into the generator while
it is suspended at the `yield`.  Returns the emitted event trace and the
exception still propagating at the end, if any.  `seq` stops at the first
exception; `tryFinallyP` always runs the cleanup, then re-raises the
body's exception (a cleanup exception would replace it, as in Python). -/
def runLifespan (p : LifespanProg) (serving : Except PyException Unit) :
    List LifespanEvent × Option PyException :=
  match p with
  | LifespanProg.action e => ([e], none)
  | LifespanProg.yieldToServer =>
    ([LifespanEvent.serve],
     match serving with
     | Except.ok _ => none
     | Except.error e => some e)
  | LifespanProg.seq p q =>
    let r := runLifespan p serving
    match r.2 with
    | some e => (r.1, some e)
    | none =>
      let s := runLifespan q serving
      (r.1 ++ s.1, s.2)
  | LifespanProg.tryFinallyP body cleanup =>
    let rb := runLifespan body serving
    let rc := runLifespan cleanup serving
    (rb.1 ++ rc.1,
     match rc.2 with
     | some e => some e
     | none => rb.2)

/-- `app_lifespan` (lines 64-87): `db = await Database.connect()`, then
`try: yield AppContext(db=db)` with `finally: await db.disconnect()`. -/
def app_lifespan : LifespanProg :=
  LifespanProg.seq (LifespanProg.action LifespanEvent.connect)
    (LifespanProg.tryFinallyP LifespanProg.yieldToServer
      (LifespanProg.action LifespanEvent.disconnect))

/-! Helper notions and lemmas about the strings the tools produce. -/

/-- `pat` occurs as a contiguous substring of `s`. -/
def hasSubstr (s pat : String) : Prop := pat.data <:+: s.data

instance (s pat : String) : Decidable (hasSubstr s pat) :=
  inferInstanceAs (Decidable (pat.data <:+: s.data))

/-- A substring of `a` is a substring of `a ++ b`. -/
theorem hasSubstr_append_left {a pat : String} (b : String) (h : hasSubstr a pat) :
    hasSubstr (a ++ b) pat := by
  unfold hasSubstr at h ⊢
  rw [String.data_append]
  exact h.trans (List.prefix_append a.data b.data).isInfix

/-- A nonempty string stays nonempty under right-append. -/
theorem append_ne_empty_left {a : String} (b : String) (h : a ≠ "") : a ++ b ≠ "" := by
  intro heq
  apply h
  have hdata : a.data ++ b.data = [] := by
    rw [← String.data_append, heq]
  exact String.ext (List.append_eq_nil.mp hdata).1

/-- Two strings whose first characters differ are different, even when the
left one is extended on the right. -/
theorem append_ne_of_head {pre suf t : String} {c d : Char}
    (hpre : pre.data.head? = some c) (ht : t.data.head? = some d) (hcd : c ≠ d) :
    pre ++ suf ≠ t := by
  intro heq
  apply hcd
  have hdata : pre.data ++ suf.data = t.data := by
    rw [← String.data_append, heq]
  have hhead : (pre.data ++ suf.data).head? = some d := by rw [hdata, ht]
  rw [List.head?_append, hpre] at hhead
  exact Option.some.inj hhead

/-- `splitOnComma` never returns an empty list of groups. -/
theorem splitOnComma_ne_nil (l : List Char) : splitOnComma l ≠ [] := by
  induction l with
  | nil => simp [splitOnComma]
  | cons c rest ih =>
    simp only [splitOnComma]
    cases hr : splitOnComma rest with
    | nil => simp
    | cons g gs =>
      by_cases hc : c == ','
      · simp [hc]
      · simp [hc]

/-- The parsed seed list of `get_recommendations` (line 173). -/
def parsedTrackIds (seed_track_ids : String) : List String :=
  ((pySplitComma seed_track_ids).map pyStrip).take 5

/-- The parsed seed list is never empty: Python's `split` always yields at
least one (possibly empty) piece. -/
theorem parsedTrackIds_ne_nil (s : String) : parsedTrackIds s ≠ [] := by
  unfold parsedTrackIds pySplitComma
  simp only [ne_eq, List.take_eq_nil_iff, not_or]
  constructor
  · decide
  · simp only [List.map_eq_nil_iff]
    exact splitOnComma_ne_nil s.data

/-- Boolean form of `parsedTrackIds_ne_nil`, shaped for the `if` on
line 175. -/
theorem parsedTrackIds_isEmpty_false (s : String) :
    (((pySplitComma s).map pyStrip).take 5).isEmpty = false := by
  rw [List.isEmpty_eq_false]
  exact parsedTrackIds_ne_nil s

/-! Claim theorems. -/

/-- Claim C1: the claim says `MCPToolResponse` construction succeeds only
when exactly one of content/error is populated and fails with a validation
error otherwise.  The code does not enforce this: construction with BOTH
fields populated succeeds, and construction with NEITHER (left at their
defaults) also succeeds, because pydantic skips field validators on
defaulted fields; only an explicitly provided falsy value for the field
selected by the success flag is rejected.  This evaluates the constructor
at those inputs. -/
theorem mcptoolresponse_validator_gaps :
    mkMCPToolResponse
        { success := some true, content := some (some "ok"), error := some (some "boom") }
      = Except.ok { success := true, content := some "ok", error := some "boom" }
    ∧ mkMCPToolResponse { success := some true, content := none, error := none }
      = Except.ok { success := true, content := none, error := none }
    ∧ mkMCPToolResponse { success := some true, content := some none, error := some none }
      = Except.error "Successful response must have content" :=
  ⟨rfl, rfl, rfl⟩

/-- The API stub used to observe the limit forwarded by `search_tracks`:
it raises carrying the limit it was called with, which the tool's generic
handler then echoes. -/
def limitProbeApi : String → Int → Except PyException (Option SearchTracksResult) :=
  fun _ l => Except.error (PyException.other (toString l))

/-- Claim C4: the limit `search_tracks` forwards to `sp.search` equals
`min(limit, 50)`; in particular `limit=1000` is clamped to 50. -/
theorem search_tracks_limit_clamped :
    (∀ (query : String) (limit : Int),
      search_tracks query limit limitProbeApi
        = "Unexpected error: " ++ toString (min limit 50))
    ∧ (∀ query : String, search_tracks query 1000 limitProbeApi = "Unexpected error: 50") := by
  exact ⟨fun query limit => rfl, fun query => rfl⟩

/-- The one-track result the stubbed API returns for claim C6. -/
def bohemianTrack : TrackItem :=
  { name := "Bohemian Rhapsody",
    artists := [{ name := "Queen" }],
    album := { name := "A Night at the Opera" },
    uri := "spotify:track:7tFiyTwD0nx5a1eklYtX2J",
    id := "7tFiyTwD0nx5a1eklYtX2J",
    preview_url := none }

/-- A stubbed `sp.search` returning exactly one track. -/
def stubOneTrackApi : String → Int → Except PyException (Option SearchTracksResult) :=
  fun _ _ => Except.ok (some { tracks := some { items := [bohemianTrack] } })

/-- The text block `search_tracks("Bohemian Rhapsody", limit=1)` produces
against the stub. -/
def bohemianSearchOutput : String := search_tracks "Bohemian Rhapsody" 1 stubOneTrackApi

set_option maxRecDepth 8000 in
/-- Claim C6: against a stubbed API returning one track,
`search_tracks("Bohemian Rhapsody", limit=1)` yields a text block holding
the track name, artist, album, track id and URI, with the entry numbered
"1.". -/
theorem search_tracks_bohemian_stub :
    bohemianSearchOutput
      = "Found 1 tracks:\n\n1. Bohemian Rhapsody by Queen\n   Album: A Night at the Opera\n   Track ID: 7tFiyTwD0nx5a1eklYtX2J\n   URI: spotify:track:7tFiyTwD0nx5a1eklYtX2J\n   Preview: N/A\n\n"
    ∧ hasSubstr bohemianSearchOutput "1. Bohemian Rhapsody"
    ∧ hasSubstr bohemianSearchOutput "by Queen"
    ∧ hasSubstr bohemianSearchOutput "Album: A Night at the Opera"
    ∧ hasSubstr bohemianSearchOutput "Track ID: 7tFiyTwD0nx5a1eklYtX2J"
    ∧ hasSubstr bohemianSearchOutput "URI: spotify:track:7tFiyTwD0nx5a1eklYtX2J" := by
  refine ⟨by decide, by decide, by decide, by decide, by decide, by decide⟩

/-- Claim C8: in the lifespan tutorial, the database is connected before
the server serves, and `db.disconnect` runs on every exit path of the
lifespan scope — normal shutdown or an exception raised while serving —
with a serving exception still propagating after cleanup. -/
theorem app_lifespan_scoped_resource :
    ∀ serving : Except PyException Unit,
      (runLifespan app_lifespan serving).1
          = [LifespanEvent.connect, LifespanEvent.serve, LifespanEvent.disconnect]
      ∧ (runLifespan app_lifespan (Except.ok ())).2 = none
      ∧ (∀ e, (runLifespan app_lifespan (Except.error e)).2 = some e) := by
  intro serving
  refine ⟨?_, rfl, fun e => rfl⟩
  cases serving <;> rfl

/-- Claim C2: for every tool operation, when the backing Spotify API call
raises any exception — `SpotifyException` or otherwise — the operation
returns the handler's string, which contains "error", instead of
propagating: the four tool embeddings return `String` totally, and each is
shown to map a raising API to `formatToolException`. -/
theorem tool_api_exceptions_become_error_strings (e : PyException) :
    hasSubstr (formatToolException e) "error"
    ∧ (∀ (query : String) (limit : Int),
        search_tracks query limit (fun _ _ => Except.error e) = formatToolException e)
    ∧ (∀ (artist_name : String)
        (apiArtist : String → Except PyException (Option ArtistDetails))
        (apiTop : String → Except PyException (Option TopTracksResult)),
        get_artist_info artist_name (fun _ _ => Except.error e) apiArtist apiTop
          = formatToolException e)
    ∧ (∀ (track_id : String)
        (apiTrack : String → Except PyException (Option TrackDetails)),
        get_audio_features track_id (fun _ => Except.error e) apiTrack
          = formatToolException e)
    ∧ (∀ (seed : String) (limit : Int),
        get_recommendations seed limit (fun _ _ => Except.error e) = formatToolException e) := by
  refine ⟨?_, fun query limit => rfl, fun a apiA apiT => rfl, fun t apiT => rfl, ?_⟩
  · cases e with
    | spotifyException msg status =>
      exact hasSubstr_append_left ")"
        (hasSubstr_append_left (toString status)
          (hasSubstr_append_left " (Status: "
            (hasSubstr_append_left msg (by decide))))
    | validationError msg => exact hasSubstr_append_left msg (by decide)
    | other msg => exact hasSubstr_append_left msg (by decide)
  · intro seed limit
    simp only [get_recommendations, parsedTrackIds_isEmpty_false, Bool.false_eq_true,
      if_false]
    rfl

/-- Claim C3: for every tool operation, an empty or absent result set from
the backing API produces the descriptive "No ..." string for that tool —
a non-empty string, not an exception (the embeddings are total) and not
the empty string. -/
theorem empty_results_yield_descriptive_strings (query artist_name track_id seed : String)
    (limit : Int)
    (apiArtist : String → Except PyException (Option ArtistDetails))
    (apiTop : String → Except PyException (Option TopTracksResult))
    (apiTrack : String → Except PyException (Option TrackDetails))
    (rest : List (Option AudioFeatures)) :
    (search_tracks query limit (fun _ _ => Except.ok none)
        = "No results found for track name: '" ++ query ++ "'"
      ∧ search_tracks query limit (fun _ _ => Except.ok (some { tracks := none }))
        = "No results found for track name: '" ++ query ++ "'"
      ∧ search_tracks query limit (fun _ _ => Except.ok (some { tracks := some { items := [] } }))
        = "No results found for track name: '" ++ query ++ "'"
      ∧ hasSubstr ("No results found for track name: '" ++ query ++ "'") "No results"
      ∧ "No results found for track name: '" ++ query ++ "'" ≠ "")
    ∧ (get_artist_info artist_name (fun _ _ => Except.ok none) apiArtist apiTop
        = "No artist found with name: '" ++ artist_name ++ "'"
      ∧ get_artist_info artist_name (fun _ _ => Except.ok (some { artists := none }))
          apiArtist apiTop
        = "No artist found with name: '" ++ artist_name ++ "'"
      ∧ get_artist_info artist_name
          (fun _ _ => Except.ok (some { artists := some { items := [] } })) apiArtist apiTop
        = "No artist found with name: '" ++ artist_name ++ "'"
      ∧ hasSubstr ("No artist found with name: '" ++ artist_name ++ "'") "No artist found"
      ∧ "No artist found with name: '" ++ artist_name ++ "'" ≠ "")
    ∧ (get_audio_features track_id (fun _ => Except.ok none) apiTrack
        = "No audio features found for track ID: '" ++ track_id ++ "'"
      ∧ get_audio_features track_id (fun _ => Except.ok (some [])) apiTrack
        = "No audio features found for track ID: '" ++ track_id ++ "'"
      ∧ get_audio_features track_id (fun _ => Except.ok (some (none :: rest))) apiTrack
        = "No audio features found for track ID: '" ++ track_id ++ "'"
      ∧ hasSubstr ("No audio features found for track ID: '" ++ track_id ++ "'")
          "No audio features found"
      ∧ "No audio features found for track ID: '" ++ track_id ++ "'" ≠ "")
    ∧ (get_recommendations seed limit (fun _ _ => Except.ok none)
        = "No recommendations found for the given tracks"
      ∧ get_recommendations seed limit (fun _ _ => Except.ok (some { tracks := [] }))
        = "No recommendations found for the given tracks"
      ∧ hasSubstr "No recommendations found for the given tracks" "No recommendations"
      ∧ "No recommendations found for the given tracks" ≠ "") := by
  have hrec : ∀ api : List String → Int → Except PyException (Option RecommendationsResult),
      (∀ ids l, api ids l = Except.ok none ∨ api ids l = Except.ok (some { tracks := [] })) →
      get_recommendations seed limit api = "No recommendations found for the given tracks" := by
    intro api hapi
    simp only [get_recommendations, parsedTrackIds_isEmpty_false, Bool.false_eq_true,
      if_false]
    rcases hapi (((pySplitComma seed).map pyStrip).take 5) (min limit 100) with h | h <;>
      rw [h] <;> rfl
  refine ⟨⟨rfl, rfl, rfl, ?_, ?_⟩, ⟨rfl, rfl, rfl, ?_, ?_⟩, ⟨rfl, rfl, rfl, ?_, ?_⟩,
    ⟨?_, ?_, by decide, by decide⟩⟩
  · exact hasSubstr_append_left "'" (hasSubstr_append_left query (by decide))
  · exact append_ne_empty_left "'" (append_ne_empty_left query (by decide))
  · exact hasSubstr_append_left "'" (hasSubstr_append_left artist_name (by decide))
  · exact append_ne_empty_left "'" (append_ne_empty_left artist_name (by decide))
  · exact hasSubstr_append_left "'" (hasSubstr_append_left track_id (by decide))
  · exact append_ne_empty_left "'" (append_ne_empty_left track_id (by decide))
  · exact hrec _ (fun ids l => Or.inl rfl)
  · exact hrec _ (fun ids l => Or.inr rfl)

/-- Head character survives right-append. -/
theorem data_head_append_left {a : String} (b : String) {c : Char}
    (h : a.data.head? = some c) : (a ++ b).data.head? = some c := by
  rw [String.data_append, List.head?_append, h]
  rfl

/-- The API stub used to observe the seed list forwarded by
`get_recommendations`: it raises carrying a rendering of the ids it was
called with, which the tool's generic handler then echoes. -/
def recSeedProbeApi : List String → Int → Except PyException (Option RecommendationsResult) :=
  fun ids _ =>
    Except.error (PyException.other (String.join (ids.map (fun s => "<" ++ s ++ ">"))))

/-- Claim C9: `get_recommendations` forwards to the API exactly the first
five comma-separated ids of its input, each stripped; later ids are
discarded (concretely, of seven ids only the first five reach the API). -/
theorem recommendations_forward_first_five_seeds :
    (∀ (seed : String) (limit : Int),
      get_recommendations seed limit recSeedProbeApi
        = "Unexpected error: "
            ++ String.join ((parsedTrackIds seed).map (fun s => "<" ++ s ++ ">")))
    ∧ (∀ seed : String, parsedTrackIds seed = ((pySplitComma seed).map pyStrip).take 5)
    ∧ (∀ seed : String, (parsedTrackIds seed).length ≤ 5)
    ∧ get_recommendations " a , b,c,d,e,f,g " 10 recSeedProbeApi
        = "Unexpected error: <a><b><c><d><e>" := by
  refine ⟨?_, fun seed => rfl, fun seed => List.length_take_le 5 _, by decide⟩
  intro seed limit
  simp only [get_recommendations, parsedTrackIds_isEmpty_false, Bool.false_eq_true, if_false]
  rfl

/-- Claim C10: the parsed seed list of `get_recommendations` is never
empty — Python's `split(',')` yields at least one piece — so the
"Please provide at least one track ID" branch is unreachable and that
string is never returned; an empty or whitespace-only input is instead
forwarded to the API as the single blank seed id "". -/
theorem please_provide_branch_unreachable :
    (∀ seed : String, parsedTrackIds seed ≠ [])
    ∧ (∀ (seed : String) (limit : Int)
        (api : List String → Int → Except PyException (Option RecommendationsResult)),
        get_recommendations seed limit api ≠ "Please provide at least one track ID")
    ∧ get_recommendations "" 10 recSeedProbeApi = "Unexpected error: <>"
    ∧ get_recommendations "   " 10 recSeedProbeApi = "Unexpected error: <>" := by
  refine ⟨parsedTrackIds_ne_nil, ?_, by decide, by decide⟩
  intro seed limit api
  have hP : "Please provide at least one track ID".data.head? = some 'P' := by decide
  simp only [get_recommendations, parsedTrackIds_isEmpty_false, Bool.false_eq_true, if_false]
  cases h : api (((pySplitComma seed).map pyStrip).take 5) (min limit 100) with
  | error e =>
    show formatToolException e ≠ "Please provide at least one track ID"
    cases e with
    | spotifyException msg status =>
      exact append_ne_of_head
        (data_head_append_left (toString status)
          (data_head_append_left " (Status: "
            (data_head_append_left msg
              (show "Spotify API error: ".data.head? = some 'S' by decide))))
        hP (by decide)
    | validationError msg =>
      exact append_ne_of_head
        (show "Unexpected error: ".data.head? = some 'U' by decide) hP (by decide)
    | other msg =>
      exact append_ne_of_head
        (show "Unexpected error: ".data.head? = some 'U' by decide) hP (by decide)
  | ok results =>
    cases results with
    | none =>
      show "No recommendations found for the given tracks"
          ≠ "Please provide at least one track ID"
      decide
    | some r =>
      obtain ⟨tracks⟩ := r
      cases tracks with
      | nil =>
        show "No recommendations found for the given tracks"
            ≠ "Please provide at least one track ID"
        decide
      | cons t ts =>
        exact append_ne_of_head
          (data_head_append_left " seed track(s):\n\n"
            (data_head_append_left
              (toString (((pySplitComma seed).map pyStrip).take 5).length)
              (show "Recommendations based on ".data.head? = some 'R' by decide)))
          hP (by decide)

/-- Validation preserves the declared name. -/
theorem mkMCPToolSchema_name {t : DeclaredTool} {v : MCPToolSchema}
    (h : mkMCPToolSchema t = Except.ok v) : v.name = t.name := by
  unfold mkMCPToolSchema at h
  split at h
  · cases h
  · split at h
    · cases h
    · cases h
      rfl

/-- A produced `StructuredTool` always has a schema-table entry for its
name. -/
theorem processDeclaredTool_lookup {t : DeclaredTool} {lt : StructuredToolModel}
    (h : processDeclaredTool t = some lt) : (TOOL_SCHEMAS.lookup lt.name).isSome := by
  unfold processDeclaredTool at h
  cases hv : mkMCPToolSchema t with
  | error m => rw [hv] at h; cases h
  | ok validated =>
    rw [hv] at h
    dsimp only at h
    cases hl : TOOL_SCHEMAS.lookup validated.name with
    | none => rw [hl] at h; cases h
    | some sch =>
      rw [hl] at h
      dsimp only at h
      have hlt := Option.some.inj h
      rw [← hlt]
      simp [hl]

/-- A declared tool whose name is absent from `TOOL_SCHEMAS` is skipped. -/
theorem processDeclaredTool_of_unknown_name {t : DeclaredTool}
    (h : TOOL_SCHEMAS.lookup t.name = none) : processDeclaredTool t = none := by
  unfold processDeclaredTool
  cases hv : mkMCPToolSchema t with
  | error m => rfl
  | ok validated =>
    dsimp only
    rw [mkMCPToolSchema_name hv, h]

/-- Claim C5: discovery never emits a callable for a tool name absent from
`TOOL_SCHEMAS`, and an unmatched declared tool does not abort discovery —
the result is exactly the concatenation of discovering the tools around
it, and every declared tool that validates and matches still yields its
callable. -/
theorem discovery_skips_unknown_tools (xs ys : List DeclaredTool) (bad : DeclaredTool)
    (hbad : TOOL_SCHEMAS.lookup bad.name = none) :
    discover_mcp_tools (xs ++ bad :: ys) = discover_mcp_tools xs ++ discover_mcp_tools ys
    ∧ (∀ lt ∈ discover_mcp_tools (xs ++ bad :: ys), (TOOL_SCHEMAS.lookup lt.name).isSome)
    ∧ (∀ t lt, t ∈ xs ++ ys → processDeclaredTool t = some lt →
        lt ∈ discover_mcp_tools (xs ++ bad :: ys)) := by
  have hb := processDeclaredTool_of_unknown_name hbad
  refine ⟨?_, ?_, ?_⟩
  · unfold discover_mcp_tools
    rw [List.filterMap_append, List.filterMap_cons, hb]
  · intro lt hmem
    obtain ⟨t, _, hp⟩ := List.mem_filterMap.mp hmem
    exact processDeclaredTool_lookup hp
  · intro t lt ht hp
    apply List.mem_filterMap.mpr
    refine ⟨t, ?_, hp⟩
    rcases List.mem_append.mp ht with hx | hy
    · exact List.mem_append.mpr (Or.inl hx)
    · exact List.mem_append.mpr (Or.inr (List.mem_cons_of_mem bad hy))

/-- A declared tool matching the schema table, for the witness. -/
def searchDeclaredTool : DeclaredTool :=
  { name := "SpotifySearch", description := some "Search Spotify catalog", inputSchema := none }

/-- Another matching declared tool, for the witness. -/
def queueDeclaredTool : DeclaredTool :=
  { name := "SpotifyQueue", description := none, inputSchema := none }

/-- A declared tool with a validly shaped name that is absent from
`TOOL_SCHEMAS`, for the witness. -/
def unknownDeclaredTool : DeclaredTool :=
  { name := "SomeNewTool", description := some "not in the table", inputSchema := none }

/-- Witness for `discovery_skipped_unknown_tools` at a concrete catalog:
an unknown tool between two known ones is dropped while both neighbours
are still discovered. -/
theorem discovery_skips_unknown_tools_witness :
    discover_mcp_tools [searchDeclaredTool, unknownDeclaredTool, queueDeclaredTool]
      = discover_mcp_tools [searchDeclaredTool] ++ discover_mcp_tools [queueDeclaredTool]
    ∧ discover_mcp_tools [searchDeclaredTool, unknownDeclaredTool, queueDeclaredTool]
      = [{ name := "SpotifySearch", description := "Search Spotify catalog",
           args_schema := ToolArgsSchema.spotifySearchArgs },
         { name := "SpotifyQueue", description := "Tool: SpotifyQueue",
           args_schema := ToolArgsSchema.spotifyQueueArgs }] := by
  have h := discovery_skips_unknown_tools [searchDeclaredTool] [queueDeclaredTool]
    unknownDeclaredTool (by decide)
  exact ⟨h.1, by decide⟩

/-- Claim C7: the callable wrapped around a matched tool builds the
tool-call record from its keyword arguments, invokes the tool over the
transport with exactly that record, and returns a plain string — the
response's content when the response is successful, and "Error: " followed
by the response's error message when it is not (whether the failure came
from an empty call result or from a raised exception). -/
theorem wrapper_translates_response (tool_name : String) (kwargs : List (String × String))
    (transport : MCPToolCall → Except PyException (Option (List String)))
    (hname : pyStrip tool_name ≠ "") :
    (∀ (s : String) (rest : List String),
      transport { tool_name := tool_name, arguments := kwargs } = Except.ok (some (s :: rest)) →
      s ≠ "" →
      call_tool_wrapper tool_name kwargs transport = Except.ok s)
    ∧ (transport { tool_name := tool_name, arguments := kwargs } = Except.ok none →
      call_tool_wrapper tool_name kwargs transport = Except.ok "Error: No content in response")
    ∧ (transport { tool_name := tool_name, arguments := kwargs } = Except.ok (some []) →
      call_tool_wrapper tool_name kwargs transport = Except.ok "Error: No content in response")
    ∧ (∀ e : PyException,
      transport { tool_name := tool_name, arguments := kwargs } = Except.error e →
      pyStr e ≠ "" →
      call_tool_wrapper tool_name kwargs transport = Except.ok ("Error: " ++ pyStr e)) := by
  have hne : (tool_name == "") = false := by
    cases hq : tool_name == ""
    · rfl
    · exact absurd (congrArg pyStrip (eq_of_beq hq)) (fun hh => hname hh)
  have hne2 : (pyStrip tool_name == "") = false := by
    cases hq : pyStrip tool_name == ""
    · rfl
    · exact absurd (eq_of_beq hq) hname
  have hmk : mkMCPToolCall tool_name kwargs
      = Except.ok { tool_name := tool_name, arguments := kwargs } := by
    unfold mkMCPToolCall
    rw [hne, hne2]
    rfl
  refine ⟨?_, ?_, ?_, ?_⟩
  · intro s rest htr hs
    have hsne : (s == "") = false := by
      cases hq : s == ""
      · rfl
      · exact absurd (eq_of_beq hq) hs
    unfold call_tool_wrapper
    rw [hmk]
    dsimp only
    unfold call_mcp_tool
    rw [htr]
    unfold mkSuccessResponse mkMCPToolResponse validate_content_or_error pyFalsyOptStr
    simp [hsne, pyOrStr]
  · intro htr
    unfold call_tool_wrapper
    rw [hmk]
    dsimp only
    unfold call_mcp_tool
    rw [htr]
    rfl
  · intro htr
    unfold call_tool_wrapper
    rw [hmk]
    dsimp only
    unfold call_mcp_tool
    rw [htr]
    rfl
  · intro e htr hse
    have hsne : (pyStr e == "") = false := by
      cases hq : pyStr e == ""
      · rfl
      · exact absurd (eq_of_beq hq) hse
    unfold call_tool_wrapper
    rw [hmk]
    dsimp only
    unfold call_mcp_tool
    rw [htr]
    unfold callToolExceptHandler mkFailureResponse mkMCPToolResponse validate_content_or_error
      pyFalsyOptStr
    simp [hsne, pyStrOfOptional]

/-- Witness for `wrapper_translates_response` at concrete inputs: a
successful call returns the content item's string; an empty call result
and a raised exception both come back as "Error: ..." strings. -/
theorem wrapper_translates_response_witness :
    call_tool_wrapper "SpotifySearch" [("query", "bohemian")]
        (fun _ => Except.ok (some ["Found 1 tracks"]))
      = Except.ok "Found 1 tracks"
    ∧ call_tool_wrapper "SpotifySearch" []
        (fun _ => Except.ok none)
      = Except.ok "Error: No content in response"
    ∧ call_tool_wrapper "SpotifySearch" []
        (fun _ => Except.error (PyException.other "boom"))
      = Except.ok ("Error: boom") := by
  refine ⟨?_, ?_, ?_⟩
  · exact (wrapper_translates_response "SpotifySearch" [("query", "bohemian")]
      (fun _ => Except.ok (some ["Found 1 tracks"])) (by decide)).1
      "Found 1 tracks" [] rfl (by decide)
  · exact (wrapper_translates_response "SpotifySearch" []
      (fun _ => Except.ok none) (by decide)).2.1 rfl
  · exact (wrapper_translates_response "SpotifySearch" []
      (fun _ => Except.error (PyException.other "boom")) (by decide)).2.2.2
      (PyException.other "boom") rfl (by decide)
